import Mathlib

/-!
# Portfolio behaviour layer (`script.js`)

A shallow embedding of the client-side script: the theme toggle, the
anchor navigation, the active-link highlighter, the navigation-bar shadow,
the hero call-to-action handlers, the animation-frame throttle of the scroll
listeners and the debounce of the resize listener.

Pixel quantities (`offsetTop`, `offsetHeight`, `scrollY`) are integers.
DOM class lists are lists of tokens; the persistent store is an
association list.
-/

namespace Portfolio

/-! ## Class lists (`DOMTokenList`) -/

/-- The tokens of an element's `classList`. -/
abbrev ClassList := List String

/-- The method `classList.contains(token)`. -/
def ClassList.contains (cl : ClassList) (token : String) : Bool :=
  cl.any (fun t => t == token)

/-- The method `classList.add(token)`: appends the token unless already there. -/
def ClassList.add (cl : ClassList) (token : String) : ClassList :=
  if ClassList.contains cl token then cl else cl ++ [token]

/-- The method `classList.remove(token)`. -/
def ClassList.remove (cl : ClassList) (token : String) : ClassList :=
  cl.filter (fun t => !(t == token))

/-- The method `classList.toggle(token)`: removes the token when present,
adds it otherwise. -/
def ClassList.toggle (cl : ClassList) (token : String) : ClassList :=
  if ClassList.contains cl token then ClassList.remove cl token
  else ClassList.add cl token

/-! ## Persistent store (`localStorage`) -/

/-- The key-value pairs of `localStorage`. -/
abbrev Storage := List (String × String)

/-- The call `localStorage.getItem(key)`; `none` stands for `null`. -/
def Storage.getItem (st : Storage) (key : String) : Option String :=
  (st.find? (fun kv => kv.1 == key)).map (fun kv => kv.2)

/-- The call `localStorage.setItem(key, value)`. -/
def Storage.setItem (st : Storage) (key value : String) : Storage :=
  if st.any (fun kv => kv.1 == key) then
    st.map (fun kv => if kv.1 == key then (kv.1, value) else kv)
  else st ++ [(key, value)]

/-! ## Theme toggle -/

/-- The constant `sunIcon` of `initThemeToggle`. -/
def sunIcon : String := "☀️"

/-- The constant `moonIcon` of `initThemeToggle`. -/
def moonIcon : String := "🌙"

/-- The part of the page the theme toggle reads and writes: the class list
of `document.body`, the text of the `.theme-toggle` control and
`localStorage`. -/
structure ThemePage where
  bodyClassList : ClassList
  toggleText : String
  localStorage : Storage
  deriving DecidableEq, Repr

/-- The body of `initThemeToggle` up to the registration of the click
listener (lines 18-25). -/
def initThemeToggle (p : ThemePage) : ThemePage :=
  let savedTheme := Storage.getItem p.localStorage "theme"
  if savedTheme = some "dark" then
    { p with
      bodyClassList := ClassList.add p.bodyClassList "dark-mode"
      toggleText := sunIcon }
  else
    { p with toggleText := moonIcon }

/-- The click listener registered by `initThemeToggle` (lines 28-37). -/
def themeToggleClick (p : ThemePage) : ThemePage :=
  let bodyClassList := ClassList.toggle p.bodyClassList "dark-mode"
  let isDark := ClassList.contains bodyClassList "dark-mode"
  { bodyClassList := bodyClassList
    toggleText := if isDark then sunIcon else moonIcon
    localStorage :=
      Storage.setItem p.localStorage "theme" (if isDark then "dark" else "light") }

/-- Running `initThemeToggle` and then clicking the toggle `n` times. -/
def initThenClicks (p : ThemePage) (n : Nat) : ThemePage :=
  Nat.iterate themeToggleClick n (initThemeToggle p)

/-- Whether the body is in dark mode. -/
def ThemePage.isDark (p : ThemePage) : Bool :=
  ClassList.contains p.bodyClassList "dark-mode"

/-! ## Sections, navigation links and the active-link highlighter -/

/-- An element matched by `section[id]`: its `id` attribute, `offsetTop`
and `offsetHeight`. -/
structure Section where
  id : String
  offsetTop : Int
  offsetHeight : Int
  deriving DecidableEq, Repr

/-- An element matched by `.nav-links a`: its `href` attribute (`none` when
the attribute is missing) and its class list. -/
structure NavLink where
  href : Option String
  classList : ClassList
  deriving DecidableEq, Repr

/-- Whether the link carries the `active` class. -/
def NavLink.isActive (link : NavLink) : Bool :=
  ClassList.contains link.classList "active"

/-- The test of line 111:
`scrollPosition >= sectionTop && scrollPosition < sectionTop + sectionHeight`. -/
def Section.inRange (sec : Section) (scrollPosition : Int) : Bool :=
  decide (scrollPosition ≥ sec.offsetTop) &&
    decide (scrollPosition < sec.offsetTop + sec.offsetHeight)

/-- The inner `navLinks.forEach` of `highlightNavLink` (lines 112-117):
every link loses `active`, and gets it back when its `href` is `#` followed by
the section id. -/
def markLinks (sectionId : String) (navLinks : List NavLink) : List NavLink :=
  navLinks.map fun link =>
    let cleared := ClassList.remove link.classList "active"
    if link.href = some ("#" ++ sectionId) then
      { link with classList := ClassList.add cleared "active" }
    else
      { link with classList := cleared }

/-- The function `highlightNavLink` (lines 103-120): the sections are visited
in document order, and each one whose range contains `scrollY + 100` rewrites
the flags of all links. -/
def highlightNavLink (sections : List Section) (navLinks : List NavLink)
    (scrollY : Int) : List NavLink :=
  let scrollPosition := scrollY + 100
  sections.foldl
    (fun links sec =>
      if Section.inRange sec scrollPosition then markLinks sec.id links else links)
    navLinks

/-- How many links carry the `active` class. -/
def activeCount (navLinks : List NavLink) : Nat :=
  (navLinks.filter NavLink.isActive).length

/-- How many links have `href` equal to `#` followed by the given id. -/
def linksTo (sectionId : String) (navLinks : List NavLink) : Nat :=
  (navLinks.filter (fun link => decide (link.href = some ("#" ++ sectionId)))).length

/-- The last section, in document order, whose range contains the position. -/
def lastInRange (sections : List Section) (scrollPosition : Int) : Option Section :=
  (sections.filter (fun sec => Section.inRange sec scrollPosition)).getLast?

/-- Two sections whose ranges `[top, top + height)` share no position. -/
def Section.Disjoint (a b : Section) : Prop :=
  ∀ x : Int, ¬ (Section.inRange a x = true ∧ Section.inRange b x = true)

/-! ## Navigation-bar shadow -/

/-- The function `updateNavShadow` (lines 144-150), on the class list of the
`nav` element captured by `initNavShadow`. -/
def updateNavShadow (navClassList : ClassList) (scrollY : Int) : ClassList :=
  if scrollY > 50 then ClassList.add navClassList "scrolled"
  else ClassList.remove navClassList "scrolled"

/-! ## Click handlers that scroll to a section -/

/-- An element of the document, as far as the click handlers look at it. -/
structure Element where
  tagName : String
  id : Option String
  offsetTop : Int
  offsetHeight : Int
  deriving DecidableEq, Repr

/-- The elements of the document, in tree order. -/
structure Document where
  elements : List Element
  deriving DecidableEq, Repr

/-- The call `document.getElementById(id)`: the first element whose `id`
attribute is the given string; an empty id names no element. -/
def Document.getElementById (doc : Document) (id : String) : Option Element :=
  if id = "" then none else doc.elements.find? (fun e => decide (e.id = some id))

/-- The call `document.querySelector('nav')`: the first `nav` element. -/
def Document.queryNav (doc : Document) : Option Element :=
  doc.elements.find? (fun e => decide (e.tagName = "nav"))

/-- The argument of `window.scrollTo`. -/
structure ScrollToOptions where
  top : Int
  behavior : String
  deriving DecidableEq, Repr

/-- What a click handler did: whether it called `e.preventDefault()`, the
`window.scrollTo` requests it issued, and whether it ended in a `TypeError`
(a property read on `null`). -/
structure ClickEffect where
  defaultPrevented : Bool
  scrollRequests : List ScrollToOptions
  threw : Bool
  deriving DecidableEq, Repr

/-- The effect at the start of a handler: nothing done yet. -/
def ClickEffect.start : ClickEffect :=
  { defaultPrevented := false, scrollRequests := [], threw := false }

/-- The call `e.preventDefault()`. -/
def ClickEffect.preventDefault (eff : ClickEffect) : ClickEffect :=
  { eff with defaultPrevented := true }

/-- The call `window.scrollTo(options)`. -/
def ClickEffect.scrollTo (eff : ClickEffect) (options : ScrollToOptions) : ClickEffect :=
  { eff with scrollRequests := eff.scrollRequests ++ [options] }

/-- A property read on `null`: the handler stops with a `TypeError`. -/
def ClickEffect.typeError (eff : ClickEffect) : ClickEffect :=
  { eff with threw := true }

/-- The test `href.startsWith('#')`. -/
def startsWithHash (href : String) : Bool :=
  match href.data with
  | c :: _ => c == '#'
  | [] => false

/-- The call `href.substring(1)`. -/
def substring1 (href : String) : String :=
  String.mk (href.data.drop 1)

/-- The click listener of a navigation link (`initSmoothScroll`, lines 73-92). -/
def navLinkClick (doc : Document) (link : NavLink) : ClickEffect :=
  match link.href with
  | none => ClickEffect.typeError ClickEffect.start
  | some href =>
    if startsWithHash href then
      let eff := ClickEffect.preventDefault ClickEffect.start
      let targetId := substring1 href
      match Document.getElementById doc targetId with
      | some targetSection =>
        match Document.queryNav doc with
        | none => ClickEffect.typeError eff
        | some nav =>
          let navHeight := nav.offsetHeight
          let targetPosition := targetSection.offsetTop - navHeight
          ClickEffect.scrollTo eff { top := targetPosition, behavior := "smooth" }
      | none => eff
    else
      ClickEffect.start

/-- The click listener of `.btn-primary` (`initHeroCTA`, lines 176-186). -/
def viewProjectsBtnClick (doc : Document) : ClickEffect :=
  let eff := ClickEffect.preventDefault ClickEffect.start
  match Document.getElementById doc "projects" with
  | some projectsSection =>
    match Document.queryNav doc with
    | none => ClickEffect.typeError eff
    | some nav =>
      let navHeight := nav.offsetHeight
      ClickEffect.scrollTo eff
        { top := projectsSection.offsetTop - navHeight, behavior := "smooth" }
  | none => eff

/-- The click listener of `.btn-secondary` (`initHeroCTA`, lines 190-200). -/
def contactBtnClick (doc : Document) : ClickEffect :=
  let eff := ClickEffect.preventDefault ClickEffect.start
  match Document.getElementById doc "contact" with
  | some contactSection =>
    match Document.queryNav doc with
    | none => ClickEffect.typeError eff
    | some nav =>
      let navHeight := nav.offsetHeight
      ClickEffect.scrollTo eff
        { top := contactSection.offsetTop - navHeight, behavior := "smooth" }
  | none => eff

/-! ## Scroll listeners behind the animation-frame throttle -/

/-- The two callbacks handed to `window.requestAnimationFrame`: the one of
`initActiveNavHighlight` (lines 126-129) and the one of `initNavShadow`
(lines 156-159). -/
inductive FrameCallback where
  | highlight
  | shadow
  deriving DecidableEq, Repr

/-- The state of the scroll machinery: the scroll offset, the flags the two
recomputations write, the `ticking` latch of each listener, the callbacks
waiting for the next animation frame, and a record of every recomputation
that ran together with the `scrollY` it read. -/
structure ScrollState where
  scrollY : Int
  navLinks : List NavLink
  navClassList : ClassList
  tickingHighlight : Bool
  tickingShadow : Bool
  frameQueue : List FrameCallback
  ran : List (FrameCallback × Int)
  deriving DecidableEq, Repr

/-- The scroll listener of `initActiveNavHighlight` (lines 124-132). -/
def highlightScrollListener (s : ScrollState) : ScrollState :=
  if !s.tickingHighlight then
    { s with
      frameQueue := s.frameQueue ++ [FrameCallback.highlight]
      tickingHighlight := true }
  else s

/-- The scroll listener of `initNavShadow` (lines 154-162). -/
def shadowScrollListener (s : ScrollState) : ScrollState :=
  if !s.tickingShadow then
    { s with
      frameQueue := s.frameQueue ++ [FrameCallback.shadow]
      tickingShadow := true }
  else s

/-- One scroll event: the window is at offset `y` and both listeners run, in
the order they were registered. -/
def scrollEvent (s : ScrollState) (y : Int) : ScrollState :=
  shadowScrollListener (highlightScrollListener { s with scrollY := y })

/-- Running one queued callback: the recomputation, then `ticking = false`. -/
def runFrameCallback (sections : List Section) (s : ScrollState)
    (cb : FrameCallback) : ScrollState :=
  match cb with
  | FrameCallback.highlight =>
    { s with
      navLinks := highlightNavLink sections s.navLinks s.scrollY
      ran := s.ran ++ [(FrameCallback.highlight, s.scrollY)]
      tickingHighlight := false }
  | FrameCallback.shadow =>
    { s with
      navClassList := updateNavShadow s.navClassList s.scrollY
      ran := s.ran ++ [(FrameCallback.shadow, s.scrollY)]
      tickingShadow := false }

/-- One animation frame: the callbacks queued so far run in order, on an
emptied queue. -/
def animationFrame (sections : List Section) (s : ScrollState) : ScrollState :=
  s.frameQueue.foldl (runFrameCallback sections) { s with frameQueue := [] }

/-- A burst of scroll events with no frame in between. -/
def scrollBurst (s : ScrollState) (ys : List Int) : ScrollState :=
  ys.foldl scrollEvent s

/-! ## Resize listener behind the debounce -/

/-- The state of the timers: the simulated clock, the next timeout id, the
pending timeouts as (id, due time), the variable `resizeTimeout` (`none` for
`undefined`), and the times at which the body of the debounced handler
(line 234) ran. -/
structure TimerState where
  now : Nat
  nextId : Nat
  timers : List (Nat × Nat)
  resizeTimeout : Option Nat
  bodyRuns : List Nat
  deriving DecidableEq, Repr

/-- The state when the script has loaded: no timeout pending. -/
def TimerState.loaded : TimerState :=
  { now := 0, nextId := 1, timers := [], resizeTimeout := none, bodyRuns := [] }

/-- The call `clearTimeout(id)`: drops the pending timeout of that id, if any. -/
def clearTimeout (s : TimerState) (id : Option Nat) : TimerState :=
  { s with timers := s.timers.filter (fun t => !(decide (some t.1 = id))) }

/-- The call `setTimeout(body, delay)`: a new pending timeout; returns its id. -/
def setTimeout (s : TimerState) (delay : Nat) : TimerState × Nat :=
  ({ s with
     nextId := s.nextId + 1
     timers := s.timers ++ [(s.nextId, s.now + delay)] }, s.nextId)

/-- The resize listener (lines 231-236). -/
def resizeListener (s : TimerState) : TimerState :=
  let s1 := clearTimeout s s.resizeTimeout
  let (s2, id) := setTimeout s1 250
  { s2 with resizeTimeout := some id }

/-- The clock advances to time `t`: every pending timeout due by then fires,
its body running at its due time. All timeouts have the same delay, so the
pending list is in order of due time. -/
def advanceTo (s : TimerState) (t : Nat) : TimerState :=
  let t1 := max s.now t
  { s with
    now := t1
    timers := s.timers.filter (fun p => !(decide (p.2 ≤ t1)))
    bodyRuns := s.bodyRuns ++ (s.timers.filter (fun p => decide (p.2 ≤ t1))).map (fun p => p.2) }

/-- A resize event at time `t`. -/
def resizeAt (s : TimerState) (t : Nat) : TimerState :=
  resizeListener (advanceTo s t)

/-- The resize events at the given times, in order, from the loaded state. -/
def resizeEvents (ts : List Nat) : TimerState :=
  ts.foldl resizeAt TimerState.loaded

/-! ## Invariants used in the proofs -/

/-- Both callbacks are queued once for the next frame, both latches are set,
and nothing the recomputations write has changed since `s0`. -/
def Armed (s0 s : ScrollState) : Prop :=
  s.navLinks = s0.navLinks ∧ s.navClassList = s0.navClassList
    ∧ s.tickingHighlight = true ∧ s.tickingShadow = true
    ∧ s.frameQueue = [FrameCallback.highlight, FrameCallback.shadow] ∧ s.ran = s0.ran

/-- The last resize event was at time `t`, its timeout is the only one pending,
and the body has not run. -/
def Pending (s : TimerState) (t : Nat) : Prop :=
  s.now = t ∧ s.bodyRuns = []
    ∧ ∃ id, s.timers = [(id, t + 250)] ∧ s.resizeTimeout = some id

/-! ### Basic facts about class lists and the store -/

theorem ClassList.contains_iff (cl : ClassList) (t : String) :
    ClassList.contains cl t = true ↔ t ∈ cl := by
  simp [ClassList.contains]

theorem ClassList.contains_add_self (cl : ClassList) (t : String) :
    ClassList.contains (ClassList.add cl t) t = true := by
  unfold ClassList.add
  by_cases h : ClassList.contains cl t = true
  · rw [if_pos h]; exact h
  · rw [if_neg h]; simp [ClassList.contains]

theorem ClassList.contains_remove_self (cl : ClassList) (t : String) :
    ClassList.contains (ClassList.remove cl t) t = false := by
  simp [ClassList.contains, ClassList.remove]

theorem ClassList.contains_add_of_ne (cl : ClassList) (t u : String) (h : t ≠ u) :
    ClassList.contains (ClassList.add cl t) u = ClassList.contains cl u := by
  unfold ClassList.add
  by_cases hc : ClassList.contains cl t = true
  · rw [if_pos hc]
  · rw [if_neg hc]; simp [ClassList.contains, h]

theorem ClassList.contains_remove_of_ne (cl : ClassList) (t u : String) (h : t ≠ u) :
    ClassList.contains (ClassList.remove cl t) u = ClassList.contains cl u := by
  induction cl with
  | nil => rfl
  | cons a as ih =>
    simp only [ClassList.contains, ClassList.remove] at ih ⊢
    by_cases ha : a = t
    · subst ha
      simp [List.filter_cons, h, ih]
    · simp [List.filter_cons, ha, ih]

theorem ClassList.contains_toggle_self (cl : ClassList) (t : String) :
    ClassList.contains (ClassList.toggle cl t) t = !ClassList.contains cl t := by
  unfold ClassList.toggle
  by_cases h : ClassList.contains cl t = true
  · rw [if_pos h, ClassList.contains_remove_self, h]; rfl
  · rw [if_neg h, ClassList.contains_add_self]
    simp only [Bool.not_eq_true] at h
    rw [h]; rfl

theorem Storage.getItem_setItem_self (st : Storage) (k v : String) :
    Storage.getItem (Storage.setItem st k v) k = some v := by
  unfold Storage.setItem
  by_cases h : st.any (fun kv => kv.1 == k) = true
  · rw [if_pos h]
    induction st with
    | nil => simp at h
    | cons a as ih =>
      by_cases ha : a.1 = k
      · simp [Storage.getItem, List.find?_cons, ha]
      · have h2 : as.any (fun kv => kv.1 == k) = true := by
          simpa [ha] using h
        have := ih h2
        simpa [Storage.getItem, List.find?_cons, ha] using this
  · rw [if_neg h]
    have h4 : st.find? (fun kv => kv.1 == k) = none := by
      rw [List.find?_eq_none]
      intro x hx hk
      apply h
      rw [List.any_eq_true]
      exact ⟨x, hx, hk⟩
    simp [Storage.getItem, List.find?_append, h4]

/-! ## Theme toggle: initialisation and clicks -/

theorem isDark_themeToggleClick (p : ThemePage) :
    (themeToggleClick p).isDark = !p.isDark := by
  simp only [ThemePage.isDark, themeToggleClick]
  exact ClassList.contains_toggle_self _ _

theorem isDark_iterate_click (q : ThemePage) (n : Nat) :
    (Nat.iterate themeToggleClick n q).isDark
      = Bool.xor q.isDark (decide (n % 2 = 1)) := by
  induction n with
  | zero => simp
  | succ k ih =>
    rw [Function.iterate_succ_apply', isDark_themeToggleClick, ih]
    rcases Nat.mod_two_eq_zero_or_one k with h | h
    · have h2 : (k + 1) % 2 = 1 := by omega
      simp [h, h2]
    · have h2 : (k + 1) % 2 = 0 := by omega
      simp [h, h2]

theorem isDark_initThemeToggle (p : ThemePage) :
    (initThemeToggle p).isDark
      = (decide (Storage.getItem p.localStorage "theme" = some "dark") || p.isDark) := by
  unfold initThemeToggle
  by_cases h : Storage.getItem p.localStorage "theme" = some "dark"
  · simp [h, ThemePage.isDark, ClassList.contains_add_self]
  · simp [h, ThemePage.isDark]

theorem toggleText_initThemeToggle (p : ThemePage) :
    (initThemeToggle p).toggleText
      = if Storage.getItem p.localStorage "theme" = some "dark" then sunIcon else moonIcon := by
  unfold initThemeToggle
  by_cases h : Storage.getItem p.localStorage "theme" = some "dark"
  · simp [h]
  · simp [h]

theorem stored_themeToggleClick (p : ThemePage) :
    Storage.getItem (themeToggleClick p).localStorage "theme"
      = some (if (themeToggleClick p).isDark then "dark" else "light") := by
  simp only [ThemePage.isDark, themeToggleClick]
  exact Storage.getItem_setItem_self _ _ _

/-- C1: from a body without the `dark-mode` class, `initThemeToggle` followed
by `n` clicks on the toggle leaves the body in dark mode exactly when
(stored preference is `"dark"`) XOR (`n` is odd); and when `n ≥ 1` the value
stored under `theme` is `"dark"` if the resulting mode is dark and `"light"`
otherwise. The stored preference may be absent or any string. -/
theorem theme_after_clicks (p : ThemePage) (n : Nat) (h : p.isDark = false) :
    (initThenClicks p n).isDark
        = Bool.xor (decide (Storage.getItem p.localStorage "theme" = some "dark"))
            (decide (n % 2 = 1))
      ∧ (1 ≤ n →
          Storage.getItem (initThenClicks p n).localStorage "theme"
            = some (if (initThenClicks p n).isDark then "dark" else "light")) := by
  constructor
  · unfold initThenClicks
    rw [isDark_iterate_click, isDark_initThemeToggle, h, Bool.or_false]
  · intro hn
    obtain ⟨k, rfl⟩ : ∃ k, n = k + 1 := ⟨n - 1, by omega⟩
    unfold initThenClicks
    rw [Function.iterate_succ_apply']
    exact stored_themeToggleClick _

theorem theme_after_clicks_witness :
    (ThemePage.mk ["wide"] "" [("theme", "dark")]).isDark = false
      ∧ 1 ≤ 3
      ∧ (initThenClicks ⟨["wide"], "", [("theme", "dark")]⟩ 3).isDark
        = Bool.xor (decide (Storage.getItem [("theme", "dark")] "theme" = some "dark"))
            (decide (3 % 2 = 1))
      ∧ Storage.getItem (initThenClicks ⟨["wide"], "", [("theme", "dark")]⟩ 3).localStorage
            "theme"
          = some (if (initThenClicks ⟨["wide"], "", [("theme", "dark")]⟩ 3).isDark
              then "dark" else "light") :=
  ⟨by decide, by decide,
    (theme_after_clicks ⟨["wide"], "", [("theme", "dark")]⟩ 3 (by decide)).1,
    (theme_after_clicks ⟨["wide"], "", [("theme", "dark")]⟩ 3 (by decide)).2 (by decide)⟩

/-- C2, as the code has it: when the body does not carry the `dark-mode` class
beforehand, after `initThemeToggle` the body carries it exactly when the stored
preference is `"dark"`, and the toggle shows the sun glyph in dark mode and the
moon glyph in light mode. -/
theorem init_theme_matches_preference (p : ThemePage) (h : p.isDark = false) :
    ((initThemeToggle p).isDark = true
        ↔ Storage.getItem p.localStorage "theme" = some "dark")
      ∧ (initThemeToggle p).toggleText
          = (if (initThemeToggle p).isDark then sunIcon else moonIcon) := by
  have hd := isDark_initThemeToggle p
  rw [h, Bool.or_false] at hd
  refine ⟨by rw [hd]; simp, ?_⟩
  rw [toggleText_initThemeToggle, hd]
  by_cases hs : Storage.getItem p.localStorage "theme" = some "dark"
  · simp [hs]
  · simp [hs]

theorem init_theme_matches_preference_witness :
    (ThemePage.mk [] "" [("theme", "dark")]).isDark = false
      ∧ ((initThemeToggle ⟨[], "", [("theme", "dark")]⟩).isDark = true
        ↔ Storage.getItem [("theme", "dark")] "theme" = some "dark")
      ∧ (initThemeToggle ⟨[], "", [("theme", "dark")]⟩).toggleText
          = (if (initThemeToggle ⟨[], "", [("theme", "dark")]⟩).isDark
              then sunIcon else moonIcon) :=
  ⟨by decide, init_theme_matches_preference ⟨[], "", [("theme", "dark")]⟩ (by decide)⟩

/-- C2 fails as stated: on a page whose body already carries `dark-mode`, with
the stored preference `"light"`, the body is still in dark mode after
`initThemeToggle` and the toggle shows the moon glyph, which is not the sun
glyph. -/
theorem init_theme_keeps_prior_dark_class :
    Storage.getItem (ThemePage.mk ["dark-mode"] "" [("theme", "light")]).localStorage "theme"
        = some "light"
      ∧ (initThemeToggle ⟨["dark-mode"], "", [("theme", "light")]⟩).isDark = true
      ∧ (initThemeToggle ⟨["dark-mode"], "", [("theme", "light")]⟩).toggleText = moonIcon
      ∧ moonIcon ≠ sunIcon := by
  decide

/-! ## Navigation-bar shadow -/

theorem scrolled_updateNavShadow (cl : ClassList) (y : Int) :
    ClassList.contains (updateNavShadow cl y) "scrolled" = decide (y > 50) := by
  unfold updateNavShadow
  by_cases h : y > 50
  · simp [h, ClassList.contains_add_self]
  · simp [h, ClassList.contains_remove_self]

/-- C5: whatever the class list of the navigation bar was and whatever
offsets `updateNavShadow` ran at before, after it runs at offset `y` the bar
carries `scrolled` exactly when `y > 50`; the flag is absent at 50 and present
at 51. -/
theorem nav_shadow_threshold (cl : ClassList) (earlier : List Int) (y : Int) :
    (ClassList.contains (updateNavShadow (earlier.foldl updateNavShadow cl) y) "scrolled" = true
        ↔ y > 50)
      ∧ ClassList.contains (updateNavShadow (earlier.foldl updateNavShadow cl) 50) "scrolled"
          = false
      ∧ ClassList.contains (updateNavShadow (earlier.foldl updateNavShadow cl) 51) "scrolled"
          = true := by
  refine ⟨?_, ?_, ?_⟩
  · rw [scrolled_updateNavShadow]; simp
  · rw [scrolled_updateNavShadow]; decide
  · rw [scrolled_updateNavShadow]; decide

/-! ## Active-link highlighter -/

theorem ClassList.remove_remove (cl : ClassList) (t : String) :
    ClassList.remove (ClassList.remove cl t) t = ClassList.remove cl t := by
  simp [ClassList.remove, List.filter_filter]

theorem ClassList.add_remove (cl : ClassList) (t : String) :
    ClassList.add (ClassList.remove cl t) t = ClassList.remove cl t ++ [t] := by
  unfold ClassList.add
  rw [ClassList.contains_remove_self]
  rfl

theorem ClassList.remove_add_remove (cl : ClassList) (t : String) :
    ClassList.remove (ClassList.add (ClassList.remove cl t) t) t = ClassList.remove cl t := by
  rw [ClassList.add_remove]
  simp [ClassList.remove, List.filter_append, List.filter_filter]

theorem markLinks_markLinks (a b : String) (links : List NavLink) :
    markLinks b (markLinks a links) = markLinks b links := by
  unfold markLinks
  rw [List.map_map]
  apply List.map_congr_left
  intro link _
  simp only [Function.comp]
  by_cases ha : link.href = some ("#" ++ a)
  · simp only [ha, if_true, ClassList.remove_add_remove]
  · simp only [ha, if_false, ClassList.remove_remove]

theorem lastInRange_append_singleton (l : List Section) (a : Section) (pos : Int) :
    lastInRange (l ++ [a]) pos
      = if Section.inRange a pos then some a else lastInRange l pos := by
  unfold lastInRange
  by_cases h : Section.inRange a pos = true
  · simp [List.filter_append, h, List.getLast?_append]
  · simp [List.filter_append, h]

/-- The fold of `highlightNavLink` amounts to one rewrite of the flags, for the
last section in range, and to nothing when no section is in range. -/
theorem highlightNavLink_eq (sections : List Section) (links : List NavLink) (s : Int) :
    highlightNavLink sections links s
      = match lastInRange sections (s + 100) with
        | none => links
        | some sec => markLinks sec.id links := by
  unfold highlightNavLink
  induction sections using List.reverseRecOn with
  | nil => rfl
  | append_singleton l a ih =>
    rw [List.foldl_append, lastInRange_append_singleton]
    simp only [List.foldl_cons, List.foldl_nil]
    simp only at ih
    rw [ih]
    by_cases h : Section.inRange a (s + 100) = true
    · simp only [h, if_true]
      cases lastInRange l (s + 100) with
      | none => rfl
      | some sec => exact markLinks_markLinks _ _ _
    · simp only [h]
      rfl

theorem lastInRange_some_of_mem (sections : List Section) (pos : Int) (sec : Section)
    (hm : sec ∈ sections) (hr : Section.inRange sec pos = true) :
    ∃ last, lastInRange sections pos = some last := by
  unfold lastInRange
  have hmem : sec ∈ sections.filter (fun x => Section.inRange x pos) :=
    List.mem_filter.mpr ⟨hm, hr⟩
  cases hl : (sections.filter (fun x => Section.inRange x pos)).getLast? with
  | none =>
    rw [List.getLast?_eq_none_iff] at hl
    rw [hl] at hmem
    simp at hmem
  | some last => exact ⟨last, rfl⟩

theorem lastInRange_mem (sections : List Section) (pos : Int) (last : Section)
    (h : lastInRange sections pos = some last) :
    last ∈ sections ∧ Section.inRange last pos = true := by
  unfold lastInRange at h
  have := List.mem_of_getLast?_eq_some h
  exact List.mem_filter.mp this

theorem lastInRange_none (sections : List Section) (pos : Int)
    (h : ∀ sec ∈ sections, Section.inRange sec pos = false) :
    lastInRange sections pos = none := by
  unfold lastInRange
  rw [List.getLast?_eq_none_iff, List.filter_eq_nil_iff]
  intro a ha
  simp [h a ha]

theorem isActive_markLinks (id : String) (links : List NavLink) :
    (markLinks id links).map (fun l => (l.href, NavLink.isActive l))
      = links.map (fun l => (l.href, decide (l.href = some ("#" ++ id)))) := by
  unfold markLinks
  rw [List.map_map]
  apply List.map_congr_left
  intro link _
  simp only [Function.comp, NavLink.isActive]
  by_cases ha : link.href = some ("#" ++ id)
  · simp only [ha, if_true, ClassList.contains_add_self, decide_True]
  · simp only [ha, if_false, ClassList.contains_remove_self, decide_False]

theorem activeCount_markLinks (id : String) (links : List NavLink) :
    activeCount (markLinks id links) = linksTo id links := by
  have h := congrArg (fun l => (l.filter (fun p => p.2)).length) (isActive_markLinks id links)
  simp only [List.filter_map, List.length_map] at h
  unfold activeCount linksTo
  exact h

theorem Section.disjoint_symm : Symmetric Section.Disjoint := by
  intro a b h x hx
  exact h x ⟨hx.2, hx.1⟩

theorem href_of_mem_markLinks (id : String) (links : List NavLink) (l : NavLink)
    (hl : l ∈ markLinks id links) (ha : NavLink.isActive l = true) :
    l.href = some ("#" ++ id) := by
  unfold markLinks at hl
  obtain ⟨link, _, rfl⟩ := List.mem_map.mp hl
  by_cases hh : link.href = some ("#" ++ id)
  · simp only [hh, if_true]
  · simp only [hh, if_false, NavLink.isActive, ClassList.contains_remove_self] at ha
    exact absurd ha (by decide)

/-- C3, as the code has it: when no two navigation links have the `href` of
the same section, and either some section's range contains `scrollY + 100` or
at most one link carried `active` beforehand, at most one link carries
`active` after `highlightNavLink`. -/
theorem highlight_at_most_one_active (sections : List Section) (links : List NavLink)
    (s : Int) (h1 : ∀ sec ∈ sections, linksTo sec.id links ≤ 1)
    (h2 : (∃ sec ∈ sections, Section.inRange sec (s + 100) = true) ∨ activeCount links ≤ 1) :
    activeCount (highlightNavLink sections links s) ≤ 1 := by
  rw [highlightNavLink_eq]
  cases hl : lastInRange sections (s + 100) with
  | none =>
    simp only
    rcases h2 with ⟨sec, hm, hr⟩ | h2
    · obtain ⟨last, hlast⟩ := lastInRange_some_of_mem sections (s + 100) sec hm hr
      rw [hl] at hlast
      exact absurd hlast (by simp)
    · exact h2
  | some last =>
    simp only
    rw [activeCount_markLinks]
    exact h1 last (lastInRange_mem sections (s + 100) last hl).1

theorem highlight_at_most_one_active_witness :
    (∀ sec ∈ [Section.mk "about" 0 500, Section.mk "work" 400 600],
        linksTo sec.id [NavLink.mk (some "#about") ["active"], NavLink.mk (some "#work") []]
          ≤ 1)
      ∧ ((∃ sec ∈ [Section.mk "about" 0 500, Section.mk "work" 400 600],
            Section.inRange sec (350 + 100) = true)
          ∨ activeCount [NavLink.mk (some "#about") ["active"], NavLink.mk (some "#work") []]
              ≤ 1)
      ∧ activeCount
          (highlightNavLink [Section.mk "about" 0 500, Section.mk "work" 400 600]
            [NavLink.mk (some "#about") ["active"], NavLink.mk (some "#work") []] 350) ≤ 1 :=
  ⟨by decide, by decide,
    highlight_at_most_one_active [Section.mk "about" 0 500, Section.mk "work" 400 600]
      [NavLink.mk (some "#about") ["active"], NavLink.mk (some "#work") []] 350
      (by decide) (by decide)⟩

/-- C3 fails as stated: with no section in range two links that carried
`active` beforehand both keep it, and with a section in range two links with
the `href` of that section both get it. -/
theorem highlight_two_active :
    activeCount
        (highlightNavLink [Section.mk "about" 0 500]
          [NavLink.mk (some "#about") ["active"], NavLink.mk (some "#work") ["active"]] 900)
        = 2
      ∧ activeCount
        (highlightNavLink [Section.mk "about" 0 500]
          [NavLink.mk (some "#about") [], NavLink.mk (some "#about") []] 0)
        = 2 := by
  decide

/-- C4: for sections with pairwise disjoint ranges `[top, top + height)`, if a
section's range contains `scrollY + 100` then after `highlightNavLink` every
link carrying `active` has `href` equal to `#` followed by that section's id;
and if no section's range contains it, `highlightNavLink` returns the links
exactly as they were. -/
theorem highlight_nonoverlapping (sections : List Section) (links : List NavLink)
    (s : Int) (hd : sections.Pairwise Section.Disjoint) :
    (∀ sec ∈ sections, Section.inRange sec (s + 100) = true →
        ∀ l ∈ highlightNavLink sections links s, NavLink.isActive l = true →
          l.href = some ("#" ++ sec.id))
      ∧ ((∀ sec ∈ sections, Section.inRange sec (s + 100) = false) →
          highlightNavLink sections links s = links) := by
  constructor
  · intro sec hm hr l hl ha
    obtain ⟨last, hlast⟩ := lastInRange_some_of_mem sections (s + 100) sec hm hr
    have hlm := lastInRange_mem sections (s + 100) last hlast
    have heq : sec = last := by
      by_contra hne
      exact hd.forall Section.disjoint_symm hm hlm.1 hne (s + 100) ⟨hr, hlm.2⟩
    rw [highlightNavLink_eq, hlast] at hl
    simp only at hl
    rw [heq]
    exact href_of_mem_markLinks last.id links l hl ha
  · intro hnone
    rw [highlightNavLink_eq, lastInRange_none sections (s + 100) hnone]

theorem highlight_nonoverlapping_witness :
    [Section.mk "about" 0 500, Section.mk "work" 500 600].Pairwise Section.Disjoint
      ∧ (∀ sec ∈ [Section.mk "about" 0 500, Section.mk "work" 500 600],
          Section.inRange sec (400 + 100) = true →
          ∀ l ∈ highlightNavLink [Section.mk "about" 0 500, Section.mk "work" 500 600]
              [NavLink.mk (some "#about") ["active"], NavLink.mk (some "#work") []] 400,
            NavLink.isActive l = true → l.href = some ("#" ++ sec.id))
      ∧ ((∀ sec ∈ [Section.mk "about" 0 500, Section.mk "work" 500 600],
            Section.inRange sec (400 + 100) = false) →
          highlightNavLink [Section.mk "about" 0 500, Section.mk "work" 500 600]
              [NavLink.mk (some "#about") ["active"], NavLink.mk (some "#work") []] 400
            = [NavLink.mk (some "#about") ["active"], NavLink.mk (some "#work") []]) :=
  have hd : [Section.mk "about" 0 500, Section.mk "work" 500 600].Pairwise Section.Disjoint := by
    simp only [List.pairwise_cons, List.mem_singleton, List.not_mem_nil, forall_eq,
      List.Pairwise.nil, and_true, false_implies, implies_true]
    intro x hx
    simp only [Section.inRange, Bool.and_eq_true, decide_eq_true_eq] at hx
    omega
  ⟨hd, highlight_nonoverlapping [Section.mk "about" 0 500, Section.mk "work" 500 600]
      [NavLink.mk (some "#about") ["active"], NavLink.mk (some "#work") []] 400 hd⟩

/-- C10: for any sections (ranges may overlap), links and scroll offset such
that some section's range contains `scrollY + 100`, after `highlightNavLink`
the links keep their `href`, and a link carries `active` exactly when its
`href` is `#` followed by the id of the last section, in document order, whose
range contains `scrollY + 100`. -/
theorem highlight_last_in_range (sections : List Section) (links : List NavLink)
    (s : Int) (h : ∃ sec ∈ sections, Section.inRange sec (s + 100) = true) :
    ∃ last, lastInRange sections (s + 100) = some last
      ∧ (highlightNavLink sections links s).map (fun l => (l.href, NavLink.isActive l))
          = links.map (fun l => (l.href, decide (l.href = some ("#" ++ last.id)))) := by
  obtain ⟨sec, hm, hr⟩ := h
  obtain ⟨last, hlast⟩ := lastInRange_some_of_mem sections (s + 100) sec hm hr
  refine ⟨last, hlast, ?_⟩
  rw [highlightNavLink_eq, hlast]
  exact isActive_markLinks last.id links

theorem highlight_last_in_range_witness :
    (∃ sec ∈ [Section.mk "about" 0 500, Section.mk "work" 400 600],
        Section.inRange sec (350 + 100) = true)
      ∧ ∃ last, lastInRange [Section.mk "about" 0 500, Section.mk "work" 400 600] (350 + 100)
          = some last
        ∧ (highlightNavLink [Section.mk "about" 0 500, Section.mk "work" 400 600]
              [NavLink.mk (some "#about") ["active"], NavLink.mk (some "#work") []]
              350).map (fun l => (l.href, NavLink.isActive l))
            = [NavLink.mk (some "#about") ["active"], NavLink.mk (some "#work") []].map
                (fun l => (l.href, decide (l.href = some ("#" ++ last.id)))) :=
  ⟨by decide,
    highlight_last_in_range [Section.mk "about" 0 500, Section.mk "work" 400 600]
      [NavLink.mk (some "#about") ["active"], NavLink.mk (some "#work") []] 350 (by decide)⟩

/-! ## Click handlers -/

/-- C6: for a navigation link whose `href` begins with `#`: if the fragment
names an element of the document (and the document has its `nav` bar), the
click handler calls `preventDefault` and issues exactly one `scrollTo`
request, smooth, with `top` the element's `offsetTop` minus the bar's
`offsetHeight`; if the fragment names no element, the handler calls
`preventDefault` and issues no request. -/
theorem nav_link_click_scrolls (doc : Document) (link : NavLink) (href : String)
    (hh : link.href = some href) (hs : startsWithHash href = true) :
    (∀ target nav, Document.getElementById doc (substring1 href) = some target →
        Document.queryNav doc = some nav →
        navLinkClick doc link
          = { defaultPrevented := true
              scrollRequests :=
                [{ top := target.offsetTop - nav.offsetHeight, behavior := "smooth" }]
              threw := false })
      ∧ (Document.getElementById doc (substring1 href) = none →
          navLinkClick doc link
            = { defaultPrevented := true, scrollRequests := [], threw := false }) := by
  constructor
  · intro target nav ht hn
    simp only [navLinkClick, hh, hs, if_true, ht, hn]
    rfl
  · intro ht
    simp only [navLinkClick, hh, hs, if_true, ht]
    rfl

theorem nav_link_click_scrolls_witness :
    (NavLink.mk (some "#work") []).href = some "#work"
      ∧ startsWithHash "#work" = true
      ∧ Document.getElementById
          ⟨[⟨"nav", none, 0, 64⟩, ⟨"section", some "work", 900, 700⟩]⟩ (substring1 "#work")
          = some ⟨"section", some "work", 900, 700⟩
      ∧ Document.queryNav ⟨[⟨"nav", none, 0, 64⟩, ⟨"section", some "work", 900, 700⟩]⟩
          = some ⟨"nav", none, 0, 64⟩
      ∧ navLinkClick ⟨[⟨"nav", none, 0, 64⟩, ⟨"section", some "work", 900, 700⟩]⟩
          (NavLink.mk (some "#work") [])
          = { defaultPrevented := true
              scrollRequests := [{ top := 900 - 64, behavior := "smooth" }]
              threw := false } :=
  ⟨rfl, by decide, by decide, by decide,
    (nav_link_click_scrolls ⟨[⟨"nav", none, 0, 64⟩, ⟨"section", some "work", 900, 700⟩]⟩
      (NavLink.mk (some "#work") []) "#work" rfl (by decide)).1
      ⟨"section", some "work", 900, 700⟩ ⟨"nav", none, 0, 64⟩ (by decide) (by decide)⟩

/-- C9, as the code has it: each of the two hero handlers (`projects` for the
primary control, `contact` for the secondary) always calls `preventDefault`;
when its target section exists (and the document has its `nav` bar) it issues
exactly one `scrollTo` request, smooth, with `top` the section's `offsetTop`
minus the bar's `offsetHeight`; when the target section does not exist it has
called `preventDefault` and issues no request. -/
theorem hero_cta_click (doc : Document) :
    (viewProjectsBtnClick doc).defaultPrevented = true
      ∧ (contactBtnClick doc).defaultPrevented = true
      ∧ (∀ target nav, Document.getElementById doc "projects" = some target →
          Document.queryNav doc = some nav →
          viewProjectsBtnClick doc
            = { defaultPrevented := true
                scrollRequests :=
                  [{ top := target.offsetTop - nav.offsetHeight, behavior := "smooth" }]
                threw := false })
      ∧ (∀ target nav, Document.getElementById doc "contact" = some target →
          Document.queryNav doc = some nav →
          contactBtnClick doc
            = { defaultPrevented := true
                scrollRequests :=
                  [{ top := target.offsetTop - nav.offsetHeight, behavior := "smooth" }]
                threw := false })
      ∧ (Document.getElementById doc "projects" = none →
          viewProjectsBtnClick doc
            = { defaultPrevented := true, scrollRequests := [], threw := false })
      ∧ (Document.getElementById doc "contact" = none →
          contactBtnClick doc
            = { defaultPrevented := true, scrollRequests := [], threw := false }) := by
  refine ⟨?_, ?_, ?_, ?_, ?_, ?_⟩
  · unfold viewProjectsBtnClick
    cases Document.getElementById doc "projects" <;> cases Document.queryNav doc <;> rfl
  · unfold contactBtnClick
    cases Document.getElementById doc "contact" <;> cases Document.queryNav doc <;> rfl
  · intro target nav ht hn
    simp only [viewProjectsBtnClick, ht, hn]
    rfl
  · intro target nav ht hn
    simp only [contactBtnClick, ht, hn]
    rfl
  · intro ht
    simp only [viewProjectsBtnClick, ht]
    rfl
  · intro ht
    simp only [contactBtnClick, ht]
    rfl

theorem hero_cta_click_witness :
    Document.getElementById
        ⟨[⟨"nav", none, 0, 64⟩, ⟨"section", some "projects", 900, 700⟩]⟩ "projects"
        = some ⟨"section", some "projects", 900, 700⟩
      ∧ Document.queryNav ⟨[⟨"nav", none, 0, 64⟩, ⟨"section", some "projects", 900, 700⟩]⟩
          = some ⟨"nav", none, 0, 64⟩
      ∧ viewProjectsBtnClick ⟨[⟨"nav", none, 0, 64⟩, ⟨"section", some "projects", 900, 700⟩]⟩
          = { defaultPrevented := true
              scrollRequests := [{ top := 900 - 64, behavior := "smooth" }]
              threw := false }
      ∧ Document.getElementById
          ⟨[⟨"nav", none, 0, 64⟩, ⟨"section", some "projects", 900, 700⟩]⟩ "contact" = none
      ∧ contactBtnClick ⟨[⟨"nav", none, 0, 64⟩, ⟨"section", some "projects", 900, 700⟩]⟩
          = { defaultPrevented := true, scrollRequests := [], threw := false } :=
  ⟨by decide, by decide,
    (hero_cta_click ⟨[⟨"nav", none, 0, 64⟩, ⟨"section", some "projects", 900, 700⟩]⟩).2.2.1
      ⟨"section", some "projects", 900, 700⟩ ⟨"nav", none, 0, 64⟩ (by decide) (by decide),
    by decide,
    (hero_cta_click ⟨[⟨"nav", none, 0, 64⟩, ⟨"section", some "projects", 900, 700⟩]⟩).2.2.2.2.2
      (by decide)⟩

/-- C9 fails as stated: on a document without a `projects` section and without
a `contact` section, each hero handler has called `preventDefault`. -/
theorem hero_cta_prevents_default_without_target :
    Document.getElementById ⟨[⟨"nav", none, 0, 64⟩]⟩ "projects" = none
      ∧ (viewProjectsBtnClick ⟨[⟨"nav", none, 0, 64⟩]⟩).defaultPrevented = true
      ∧ Document.getElementById ⟨[⟨"nav", none, 0, 64⟩]⟩ "contact" = none
      ∧ (contactBtnClick ⟨[⟨"nav", none, 0, 64⟩]⟩).defaultPrevented = true := by
  decide

/-! ## Animation-frame throttle -/

theorem scrollY_scrollEvent (s : ScrollState) (y : Int) : (scrollEvent s y).scrollY = y := by
  unfold scrollEvent shadowScrollListener highlightScrollListener
  cases s.tickingHighlight <;> cases s.tickingShadow <;> rfl

theorem armed_first_event (s0 : ScrollState) (y : Int) (h1 : s0.tickingHighlight = false)
    (h2 : s0.tickingShadow = false) (h3 : s0.frameQueue = []) :
    Armed s0 (scrollEvent s0 y) := by
  simp [Armed, scrollEvent, shadowScrollListener, highlightScrollListener, h1, h2, h3]

theorem armed_next_event (s0 s : ScrollState) (y : Int) (h : Armed s0 s) :
    Armed s0 (scrollEvent s y) := by
  obtain ⟨a, b, c, d, e, f⟩ := h
  simp [Armed, scrollEvent, shadowScrollListener, highlightScrollListener, a, b, c, d, e, f]

theorem armed_burst (s0 s : ScrollState) (ys : List Int) (h : Armed s0 s) :
    Armed s0 (scrollBurst s ys) := by
  induction ys generalizing s with
  | nil => exact h
  | cons y rest ih => exact ih (scrollEvent s y) (armed_next_event s0 s y h)

theorem armed_after_burst (s0 : ScrollState) (earlier : List Int) (last : Int)
    (h1 : s0.tickingHighlight = false) (h2 : s0.tickingShadow = false)
    (h3 : s0.frameQueue = []) :
    Armed s0 (scrollBurst s0 (earlier ++ [last])) := by
  cases earlier with
  | nil => exact armed_first_event s0 last h1 h2 h3
  | cons y rest =>
    exact armed_burst s0 (scrollEvent s0 y) (rest ++ [last]) (armed_first_event s0 y h1 h2 h3)

theorem scrollY_after_burst (s0 : ScrollState) (earlier : List Int) (last : Int) :
    (scrollBurst s0 (earlier ++ [last])).scrollY = last := by
  unfold scrollBurst
  rw [List.foldl_append]
  exact scrollY_scrollEvent _ _

theorem animationFrame_armed (sections : List Section) (s0 s : ScrollState)
    (h : Armed s0 s) :
    animationFrame sections s
      = { scrollY := s.scrollY
          navLinks := highlightNavLink sections s0.navLinks s.scrollY
          navClassList := updateNavShadow s0.navClassList s.scrollY
          tickingHighlight := false
          tickingShadow := false
          frameQueue := []
          ran := s0.ran ++ [(FrameCallback.highlight, s.scrollY),
                            (FrameCallback.shadow, s.scrollY)] } := by
  obtain ⟨a, b, _, _, e, f⟩ := h
  simp [animationFrame, runFrameCallback, a, b, e, f]

/-- C7: from a state with both latches clear and no callback queued, after a
burst of scroll events (any earlier offsets, then a last one; so one event or
more, 100 among them) with no frame in between, the next animation frame runs
`highlightNavLink` exactly once and `updateNavShadow` exactly once, both
reading the offset of the last event, and leaves both latches clear and the
queue empty. -/
theorem scroll_burst_one_recomputation (sections : List Section) (s0 : ScrollState)
    (earlier : List Int) (last : Int) (h1 : s0.tickingHighlight = false)
    (h2 : s0.tickingShadow = false) (h3 : s0.frameQueue = []) :
    animationFrame sections (scrollBurst s0 (earlier ++ [last]))
      = { scrollY := last
          navLinks := highlightNavLink sections s0.navLinks last
          navClassList := updateNavShadow s0.navClassList last
          tickingHighlight := false
          tickingShadow := false
          frameQueue := []
          ran := s0.ran ++ [(FrameCallback.highlight, last), (FrameCallback.shadow, last)] } := by
  rw [animationFrame_armed sections s0 _ (armed_after_burst s0 earlier last h1 h2 h3),
    scrollY_after_burst]

theorem scroll_burst_one_recomputation_witness :
    (ScrollState.mk 0 [NavLink.mk (some "#about") []] [] false false [] []).tickingHighlight
        = false
      ∧ (ScrollState.mk 0 [NavLink.mk (some "#about") []] [] false false [] []).tickingShadow
        = false
      ∧ (ScrollState.mk 0 [NavLink.mk (some "#about") []] [] false false [] []).frameQueue = []
      ∧ (List.replicate 99 (7 : Int) ++ [60]).length = 100
      ∧ animationFrame [Section.mk "about" 0 500]
          (scrollBurst (ScrollState.mk 0 [NavLink.mk (some "#about") []] [] false false [] [])
            (List.replicate 99 (7 : Int) ++ [60]))
        = { scrollY := 60
            navLinks := [NavLink.mk (some "#about") ["active"]]
            navClassList := ["scrolled"]
            tickingHighlight := false
            tickingShadow := false
            frameQueue := []
            ran := [(FrameCallback.highlight, 60), (FrameCallback.shadow, 60)] } :=
  ⟨rfl, rfl, rfl, by decide,
    scroll_burst_one_recomputation [Section.mk "about" 0 500]
      (ScrollState.mk 0 [NavLink.mk (some "#about") []] [] false false [] [])
      (List.replicate 99 (7 : Int)) 60 rfl rfl rfl⟩

/-! ## Resize debounce -/

theorem pending_first (t : Nat) : Pending (resizeAt TimerState.loaded t) t := by
  refine ⟨?_, ?_, 1, ?_, ?_⟩ <;>
    simp [resizeAt, resizeListener, advanceTo, clearTimeout, setTimeout, TimerState.loaded]

theorem pending_next (s : TimerState) (t u : Nat) (h : Pending s t) (h1 : t ≤ u)
    (h2 : u < t + 250) : Pending (resizeAt s u) u := by
  obtain ⟨hn, hr, id, ht, hid⟩ := h
  have hm : max t u = u := max_eq_right h1
  have hlt : ¬ (t + 250 ≤ u) := by omega
  refine ⟨?_, ?_, s.nextId, ?_, ?_⟩ <;>
    simp [resizeAt, resizeListener, advanceTo, clearTimeout, setTimeout, hn, hr, ht, hid, hm,
      hlt]

theorem pending_resizeEvents (ts : List Nat) (last : Nat)
    (hc : List.Chain' (fun a b => a ≤ b ∧ b < a + 250) (ts ++ [last])) :
    Pending (resizeEvents (ts ++ [last])) last := by
  induction ts using List.reverseRecOn generalizing last with
  | nil => exact pending_first last
  | append_singleton l a ih =>
    rw [List.append_assoc, List.singleton_append] at hc
    obtain ⟨hl, ha⟩ := List.chain'_split.mp hc
    have hR : a ≤ last ∧ last < a + 250 := by
      simpa [List.chain'_cons] using ha
    have hp := ih a hl
    unfold resizeEvents at hp ⊢
    rw [List.foldl_append]
    exact pending_next _ a last hp hR.1 hR.2

/-- C8: for resize events at times `ts ++ [last]` in which each event comes no
earlier than, and less than 250 ms after, the one before it, followed by
silence: observed at any time before `last + 250` the body of the handler has
not run, and observed at any time from `last + 250` on it has run exactly once,
at `last + 250`. -/
theorem resize_debounce_once (ts : List Nat) (last : Nat) (T : Nat)
    (hc : List.Chain' (fun a b => a ≤ b ∧ b < a + 250) (ts ++ [last])) :
    (T < last + 250 → (advanceTo (resizeEvents (ts ++ [last])) T).bodyRuns = [])
      ∧ (last + 250 ≤ T →
          (advanceTo (resizeEvents (ts ++ [last])) T).bodyRuns = [last + 250]) := by
  obtain ⟨hn, hr, id, ht, _⟩ := pending_resizeEvents ts last hc
  constructor
  · intro hT
    have hlt : decide (last + 250 ≤ max last T) = false := by
      rw [decide_eq_false_iff_not]
      rcases le_total last T with h | h
      · rw [max_eq_right h]; omega
      · rw [max_eq_left h]; omega
    simp only [advanceTo, hn, hr, ht, List.filter_cons, hlt, List.filter_nil, List.map_nil,
      List.append_nil, Bool.false_eq_true, if_false]
  · intro hT
    have hle : decide (last + 250 ≤ max last T) = true := by
      rw [decide_eq_true_iff]
      exact le_trans hT (le_max_right _ _)
    simp only [advanceTo, hn, hr, ht, List.filter_cons, hle, List.filter_nil, List.map_cons,
      List.map_nil, List.nil_append, if_true]

theorem resize_debounce_once_witness :
    List.Chain' (fun a b => a ≤ b ∧ b < a + 250)
        ([0, 50, 100, 150, 200, 250, 300, 350, 400, 450, 500, 550, 600, 650, 700, 750, 800,
          850, 900, 950] ++ [1000])
      ∧ (advanceTo (resizeEvents
            ([0, 50, 100, 150, 200, 250, 300, 350, 400, 450, 500, 550, 600, 650, 700, 750,
              800, 850, 900, 950] ++ [1000])) 1249).bodyRuns = []
      ∧ (advanceTo (resizeEvents
            ([0, 50, 100, 150, 200, 250, 300, 350, 400, 450, 500, 550, 600, 650, 700, 750,
              800, 850, 900, 950] ++ [1000])) 1250).bodyRuns = [1000 + 250] :=
  ⟨by simp,
    (resize_debounce_once
      [0, 50, 100, 150, 200, 250, 300, 350, 400, 450, 500, 550, 600, 650, 700, 750, 800, 850,
        900, 950] 1000 1249 (by simp)).1 (by decide),
    (resize_debounce_once
      [0, 50, 100, 150, 200, 250, 300, 350, 400, 450, 500, 550, 600, 650, 700, 750, 800, 850,
        900, 950] 1000 1250 (by simp)).2 (by decide)⟩

end Portfolio
